import Mathlib

/-!
Verification development for the `did` activity-report generator.

The repository has two parallel implementations of its calendar and lookup
logic: a single-file one (`src/did.py`) and a split one (`src/did/cli.py`,
`src/did/lookups.py`).  The definitions below are shallow embeddings of the
relevant Python functions:

* `PyDate` models `datetime.date` (a validated year/month/day triple); the
  constructor `makeDate` returns `none` exactly where Python `date(...)`
  raises `ValueError` (year outside 1..9999, month outside 1..12, day outside
  the month).  Date subtraction by a number of days (`today - timedelta(n)`)
  is modelled by `subDays`, and `datetime.date.weekday` by `weekday`
  (Monday = 0), computed via the proleptic-Gregorian ordinal `toOrdinal`
  (the same day numbering as `datetime.date.toordinal`).
* `isleap` and `daysInMonth` model `calendar.isleap` and
  `calendar.monthrange(y, m).1` for months 1..12 (the only months the
  embedded code passes to it).
* Python exceptions (`ValueError`, `AssertionError`, `NotImplementedError`,
  `click.UsageError`) are modelled by `Option`/explicit outcome constructors.
* Python `str` values that the code only compares, stores or interpolates are
  modelled by `String`; period tokens that the code inspects character by
  character are modelled by `List Char`.
* Timestamp strings parsed with `strptime(...).date()` are modelled by the
  resulting `PyDate` directly (the code never uses the time-of-day part).
-/

/-- Model of `datetime.date`: a year/month/day triple.  Values are only built
through `makeDate` or by arithmetic from valid dates, mirroring Python. -/
structure PyDate where
  year : Nat
  month : Nat
  day : Nat
deriving DecidableEq

/-- Python date comparison `a < b`: lexicographic on (year, month, day). -/
def dlt (a b : PyDate) : Prop :=
  a.year < b.year ∨ (a.year = b.year ∧
    (a.month < b.month ∨ (a.month = b.month ∧ a.day < b.day)))

instance (a b : PyDate) : Decidable (dlt a b) := by
  unfold dlt; infer_instance

/-- Python date comparison `a <= b`. -/
def dle (a b : PyDate) : Prop := dlt a b ∨ a = b

instance (a b : PyDate) : Decidable (dle a b) := by
  unfold dle; infer_instance

theorem dlt_irrefl (a : PyDate) : ¬ dlt a a := by
  unfold dlt; omega

theorem not_dlt_iff (a b : PyDate) : ¬ dlt a b ↔ dle b a := by
  cases a with | mk ay am ad =>
  cases b with | mk by' bm bd =>
  simp only [dlt, dle, PyDate.mk.injEq]
  omega

theorem dle_not_dlt {a b : PyDate} (h : dle a b) : ¬ dlt b a := by
  cases a with | mk ay am ad =>
  cases b with | mk by' bm bd =>
  simp only [dlt, dle, PyDate.mk.injEq] at h ⊢
  omega

/-- Model of `calendar.isleap`. -/
def isleap (y : Nat) : Bool := (y % 4 == 0 && !(y % 100 == 0)) || y % 400 == 0

/-- Model of `calendar.monthrange(y, m).1` (days in the month), for
months 1..12; months outside that range never reach `monthrange` in the
embedded code paths. -/
def daysInMonth (y m : Nat) : Nat :=
  if m = 2 then (if isleap y then 29 else 28)
  else if m = 4 ∨ m = 6 ∨ m = 9 ∨ m = 11 then 30
  else 31

theorem daysInMonth_pos (y m : Nat) : 1 ≤ daysInMonth y m := by
  unfold daysInMonth
  split_ifs <;> omega

/-- Days in the months strictly before month `m` of year `y`. -/
def daysBeforeMonth (y m : Nat) : Nat :=
  ((List.range (m - 1)).map (fun i => daysInMonth y (i + 1))).sum

/-- Days in all years strictly before year `y` (proleptic Gregorian). -/
def daysBeforeYear (y : Nat) : Nat :=
  365 * (y - 1) + (y - 1) / 4 - (y - 1) / 100 + (y - 1) / 400

/-- Model of `datetime.date.toordinal`: day number with 0001-01-01 = 1. -/
def toOrdinal (d : PyDate) : Nat :=
  daysBeforeYear d.year + daysBeforeMonth d.year d.month + d.day

/-- Day of the year, with January 1 = 1. -/
def dayOfYear (d : PyDate) : Nat := daysBeforeMonth d.year d.month + d.day

/-- Model of `datetime.date.weekday`: Monday = 0, ..., Sunday = 6.
0001-01-01 (ordinal 1) is a Monday. -/
def weekday (d : PyDate) : Nat := (toOrdinal d + 6) % 7

/-- Model of the `%W` field of `strftime`: week of the year with Monday as
the first day of the week; days before the first Monday are in week 0. -/
def weekNumW (d : PyDate) : Nat := (dayOfYear d + 6 - weekday d) / 7

/-- Two-digit zero padding used by `%W`. -/
def pad2 (n : Nat) : String := if n < 10 then "0" ++ toString n else toString n

/-- Model of the `%B` field of `strftime`: full month name. -/
def monthName (m : Nat) : String :=
  if m = 1 then "January"
  else if m = 2 then "February"
  else if m = 3 then "March"
  else if m = 4 then "April"
  else if m = 5 then "May"
  else if m = 6 then "June"
  else if m = 7 then "July"
  else if m = 8 then "August"
  else if m = 9 then "September"
  else if m = 10 then "October"
  else if m = 11 then "November"
  else "December"

/-- The label `start.strftime("week %W of %Y")` used for week periods. -/
def weekLabel (d : PyDate) : String :=
  "week " ++ pad2 (weekNumW d) ++ " of " ++ toString d.year

/-- The label `start.strftime("%B %Y")` used for month periods. -/
def monthLabel (d : PyDate) : String :=
  monthName d.month ++ " " ++ toString d.year

/-- The previous calendar day, for valid dates (used to model subtracting a
`timedelta`). -/
def predDay (d : PyDate) : PyDate :=
  if d.day > 1 then ⟨d.year, d.month, d.day - 1⟩
  else if d.month > 1 then ⟨d.year, d.month - 1, daysInMonth d.year (d.month - 1)⟩
  else ⟨d.year - 1, 12, 31⟩

/-- Model of `today - timedelta(days = n)` on valid dates. -/
def subDays (d : PyDate) : Nat → PyDate
  | 0 => d
  | n + 1 => subDays (predDay d) n

/-- Model of the `datetime.date` constructor: validates the field ranges and
returns `none` where Python raises `ValueError`. -/
def makeDate (y m d : Nat) : Option PyDate :=
  if 1 ≤ y ∧ y ≤ 9999 ∧ 1 ≤ m ∧ m ≤ 12 ∧ 1 ≤ d ∧ d ≤ daysInMonth y m then
    some ⟨y, m, d⟩
  else none

theorem makeDate_valid {y m d : Nat}
    (h : 1 ≤ y ∧ y ≤ 9999 ∧ 1 ≤ m ∧ m ≤ 12 ∧ 1 ≤ d ∧ d ≤ daysInMonth y m) :
    makeDate y m d = some ⟨y, m, d⟩ := by
  unfold makeDate
  exact if_pos h

/-- The `Period` literal type of both implementations. -/
inductive Period
  | week
  | month
  | quarter
  | year
deriving DecidableEq

namespace DidPy

/-- Embedding of `previous_quarter` from `src/did.py` (lines 88-95). -/
def previous_quarter (ref : PyDate) : Option PyDate :=
  if ref.month < 4 then makeDate (ref.year - 1) 12 31
  else if ref.month < 7 then makeDate ref.year 3 31
  else if ref.month < 10 then makeDate ref.year 6 30
  else makeDate ref.year 9 30

/-- Embedding of `get_this_period` from `src/did.py` (lines 67-85). -/
def get_this_period (today : PyDate) (p : Period) :
    Option (String × PyDate × PyDate) :=
  match p with
  | .week =>
      some (weekLabel (subDays today (weekday today)),
            subDays today (weekday today), today)
  | .month =>
      some (monthLabel (subDays today (today.day - 1)),
            subDays today (today.day - 1), today)
  | .quarter =>
      (makeDate today.year (((today.month - 1) / 3) * 3 + 1) 1).map
        (fun s =>
          ("Q" ++ toString ((today.month - 1) / 3 + 1) ++ " " ++ toString s.year,
           s, today))
  | .year =>
      (makeDate today.year 1 1).map (fun s => (toString s.year, s, today))

/-- Embedding of `get_last_period` from `src/did.py` (lines 98-121). -/
def get_last_period (today : PyDate) (p : Period) :
    Option (String × PyDate × PyDate) :=
  match p with
  | .week =>
      some (weekLabel (subDays (subDays today (weekday today + 1)) 6),
            subDays (subDays today (weekday today + 1)) 6,
            subDays today (weekday today + 1))
  | .month =>
      let e := subDays today today.day
      let st := subDays e (daysInMonth e.year e.month - 1)
      some (monthLabel st, st, e)
  | .quarter =>
      (previous_quarter today).bind (fun e =>
        (makeDate e.year (e.month - 3) 1).map (fun st =>
          ("Q" ++ toString (st.month / 3 + 1) ++ " " ++ toString st.year, st, e)))
  | .year =>
      (makeDate (today.year - 1) 1 1).bind (fun st =>
        (makeDate today.year 1 1).map (fun j =>
          (toString st.year, st, subDays j 1)))

end DidPy

namespace DidCli

/-- Embedding of `previous_quarter` from `src/did/cli.py` (lines 46-53). -/
def previous_quarter (ref : PyDate) : Option PyDate :=
  if ref.month < 4 then makeDate (ref.year - 1) 12 31
  else if ref.month < 7 then makeDate ref.year 3 31
  else if ref.month < 10 then makeDate ref.year 6 30
  else makeDate ref.year 9 30

/-- Embedding of `get_this_period` from `src/did/cli.py` (lines 25-43). -/
def get_this_period (today : PyDate) (p : Period) :
    Option (String × PyDate × PyDate) :=
  match p with
  | .week =>
      some (weekLabel (subDays today (weekday today)),
            subDays today (weekday today), today)
  | .month =>
      some (monthLabel (subDays today (today.day - 1)),
            subDays today (today.day - 1), today)
  | .quarter =>
      (makeDate today.year (((today.month - 1) / 3) * 3 + 1) 1).map
        (fun s =>
          ("Q" ++ toString ((today.month - 1) / 3 + 1) ++ " " ++ toString s.year,
           s, today))
  | .year =>
      (makeDate today.year 1 1).map (fun s => (toString s.year, s, today))

/-- Embedding of `get_last_period` from `src/did/cli.py` (lines 56-79). -/
def get_last_period (today : PyDate) (p : Period) :
    Option (String × PyDate × PyDate) :=
  match p with
  | .week =>
      some (weekLabel (subDays (subDays today (weekday today + 1)) 6),
            subDays (subDays today (weekday today + 1)) 6,
            subDays today (weekday today + 1))
  | .month =>
      let e := subDays today today.day
      let st := subDays e (daysInMonth e.year e.month - 1)
      some (monthLabel st, st, e)
  | .quarter =>
      (previous_quarter today).bind (fun e =>
        (makeDate e.year (e.month - 3) 1).map (fun st =>
          ("Q" ++ toString (st.month / 3 + 1) ++ " " ++ toString st.year, st, e)))
  | .year =>
      (makeDate (today.year - 1) 1 1).bind (fun st =>
        (makeDate today.year 1 1).map (fun j =>
          (toString st.year, st, subDays j 1)))

/-- Embedding of the `between` command body from `src/did/cli.py`
(lines 135-143): `none` models `click.UsageError`, and `some (since, until)`
the pair handed to `main`. -/
def between (since until_ : PyDate) : Option (PyDate × PyDate) :=
  if dle until_ since then none else some (since, until_)

end DidCli

/-- Python `str.isnumeric` on the ASCII tokens the parser sees: nonempty and
all digits. -/
def isnumeric (s : List Char) : Bool := !s.isEmpty && s.all Char.isDigit

/-- Python `int(...)` on a digit string. -/
def strToNat (s : List Char) : Nat :=
  s.foldl (fun a c => 10 * a + (c.toNat - 48)) 0

/-- Python `"-" in period`. -/
def hasDash (s : List Char) : Bool := s.any (fun c => c == '-')

/-- Python `period.partition("-")`, keeping the before/after parts. -/
def partitionDash : List Char → List Char × List Char
  | [] => ([], [])
  | c :: rest =>
      if c == '-' then ([], rest)
      else ((partitionDash rest).1.cons c, (partitionDash rest).2)

/-- The `MONTHS_TO_NUMBER` dictionary of `src/did/cli.py` (lines 15-17):
lowercase three-letter month abbreviation to month number. -/
def monthLookup (s : List Char) : Option Nat :=
  if s = ['j', 'a', 'n'] then some 1
  else if s = ['f', 'e', 'b'] then some 2
  else if s = ['m', 'a', 'r'] then some 3
  else if s = ['a', 'p', 'r'] then some 4
  else if s = ['m', 'a', 'y'] then some 5
  else if s = ['j', 'u', 'n'] then some 6
  else if s = ['j', 'u', 'l'] then some 7
  else if s = ['a', 'u', 'g'] then some 8
  else if s = ['s', 'e', 'p'] then some 9
  else if s = ['o', 'c', 't'] then some 10
  else if s = ['n', 'o', 'v'] then some 11
  else if s = ['d', 'e', 'c'] then some 12
  else none

/-- The lowercase three-letter abbreviation of month `m`, i.e. the key of
`MONTHS_TO_NUMBER` that maps to `m`. -/
def monthAbbrev (m : Nat) : List Char :=
  if m = 1 then ['j', 'a', 'n']
  else if m = 2 then ['f', 'e', 'b']
  else if m = 3 then ['m', 'a', 'r']
  else if m = 4 then ['a', 'p', 'r']
  else if m = 5 then ['m', 'a', 'y']
  else if m = 6 then ['j', 'u', 'n']
  else if m = 7 then ['j', 'u', 'l']
  else if m = 8 then ['a', 'u', 'g']
  else if m = 9 then ['s', 'e', 'p']
  else if m = 10 then ['o', 'c', 't']
  else if m = 11 then ['n', 'o', 'v']
  else ['d', 'e', 'c']

namespace DidCli

/-- Embedding of `convert_to_range` from `src/did/cli.py` (lines 82-120).
The period token is a list of characters; `none` models the `AssertionError`
and `ValueError` exits.  Note that the quarter branch lowercases the token
before matching, while the month branch looks the token up verbatim. -/
def convert_to_range (period : List Char) : Option (PyDate × PyDate) :=
  if period.length = 4 ∧ isnumeric period = true then
    let year := strToNat period
    if year > 2000 then
      (makeDate year 1 1).bind (fun d1 =>
        (makeDate year 12 (daysInMonth year 12)).map (fun d2 => (d1, d2)))
    else none
  else if period.length = 7 ∧ (period.headD ' ').toLower = 'q' ∧
      hasDash period = true then
    let q := (partitionDash period).1.map Char.toLower
    let ys := (partitionDash period).2
    if q = ['q', '1'] ∨ q = ['q', '2'] ∨ q = ['q', '3'] ∨ q = ['q', '4'] then
      if isnumeric ys = true then
        let qn := (q.getD 1 '0').toNat - 48
        let yn := strToNat ys
        (makeDate yn (3 * (qn - 1) + 1) 1).bind (fun d1 =>
          (makeDate yn (3 * qn) (daysInMonth yn (3 * qn))).map
            (fun d2 => (d1, d2)))
      else none
    else none
  else if period.length = 8 ∧ hasDash period = true then
    match monthLookup (partitionDash period).1 with
    | none => none
    | some mn =>
        if isnumeric (partitionDash period).2 = true then
          let yn := strToNat (partitionDash period).2
          (makeDate yn mn 1).bind (fun d1 =>
            (makeDate yn mn (daysInMonth yn mn)).map (fun d2 => (d1, d2)))
        else none
  else none

end DidCli

/-- The fields of a raw GitHub activity-stream event that `_github_events`
reads when determining the event date (`src/did/lookups.py` lines 144-177).
Timestamp strings are modelled by the `PyDate` their `strptime(...).date()`
parse yields. -/
structure GhEvent where
  type : String
  created_at : PyDate
  comment_updated_at : PyDate
  issue_updated_at : PyDate
  review_submitted_at : PyDate
deriving DecidableEq

/-- Outcome of the date-determination switch of `_github_events` for one
event: a date to filter on, a loud `NotImplementedError`, or the silent
ignore branch. -/
inductive ItemClass
  | dated (d : PyDate)
  | notImplemented
  | ignored
deriving DecidableEq

/-- Embedding of the first switch of `_github_events`
(`src/did/lookups.py` lines 145-175): which timestamp field the event kind
uses, or `notImplemented` (raise) or `ignored` (print marker and continue). -/
def classify (e : GhEvent) : ItemClass :=
  if e.type = "CommitCommentEvent" then .dated e.comment_updated_at
  else if e.type = "CreateEvent" then .dated e.created_at
  else if e.type = "DeleteEvent" then .dated e.created_at
  else if e.type = "ForkEvent" then .dated e.created_at
  else if e.type = "IssueCommentEvent" then .dated e.issue_updated_at
  else if e.type = "IssuesEvent" then .dated e.issue_updated_at
  else if e.type = "PublicEvent" then .notImplemented
  else if e.type = "PullRequestEvent" then .dated e.created_at
  else if e.type = "PullRequestReviewEvent" then .dated e.review_submitted_at
  else if e.type = "PullRequestReviewCommentEvent" then .dated e.comment_updated_at
  else if e.type = "PushEvent" then .dated e.created_at
  else if e.type = "ReleaseEvent" then .dated e.created_at
  else if e.type = "SponsorshipEvent" then .notImplemented
  else .ignored

/-- All event kinds named by the switch of `_github_events`, including the
two that raise `NotImplementedError`. -/
def recognizedTypes : List String :=
  ["CommitCommentEvent", "CreateEvent", "DeleteEvent", "ForkEvent",
   "IssueCommentEvent", "IssuesEvent", "PublicEvent", "PullRequestEvent",
   "PullRequestReviewEvent", "PullRequestReviewCommentEvent", "PushEvent",
   "ReleaseEvent", "SponsorshipEvent"]

/-- One output line of the `_github_events` walk.  The exact text of an
`entry` line (the second switch of `_github_events`) is not modelled; what
matters for the walk is which event is presented under which date. -/
inductive GhLine
  | ignoring (t : String)
  | entry (d : PyDate) (e : GhEvent)
  | ranOut
  | horizonMsg
deriving DecidableEq

/-- How the `_github_events` walk ended. -/
inductive GhTerm
  | horizon
  | raised
  | exhausted
  | stopped
deriving DecidableEq

/-- Embedding of the `async for ... else` loop of `_github_events`
(`src/did/lookups.py` lines 144-240) over the flattened, reverse
chronological event feed: classify each event, skip events newer than
`until`, break as soon as an event is older than `since`, present the rest,
and print the ran-out warning if the feed ends without a break. -/
def ghGo (since until_ : PyDate) : List GhEvent → List GhLine × GhTerm
  | [] => ([.ranOut], .exhausted)
  | e :: rest =>
      match classify e with
      | .notImplemented => ([], .raised)
      | .ignored =>
          ((ghGo since until_ rest).1.cons (.ignoring e.type),
           (ghGo since until_ rest).2)
      | .dated d =>
          if dlt until_ d then ghGo since until_ rest
          else if dlt d since then ([], .stopped)
          else
            ((ghGo since until_ rest).1.cons (.entry d e),
             (ghGo since until_ rest).2)

/-- Embedding of `_github_events` (`src/did/lookups.py` lines 133-240): the
90-day horizon short-circuit, then the walk over the feed. -/
def githubEvents (today since until_ : PyDate) (evs : List GhEvent) :
    List GhLine × GhTerm :=
  if (toOrdinal today : Int) - toOrdinal until_ > 90 then
    ([.horizonMsg], .horizon)
  else ghGo since until_ evs

/-- The fields of a Discourse user action that `lookup_discourse` reads
(`src/did/lookups.py` lines 352-380). -/
structure DAction where
  created_at : PyDate
  action_type : Nat
  title : String
  topic_id : Nat
deriving DecidableEq

/-- Embedding of the inner `for item in actions` loop of
`get_bounded_user_actions` (`src/did/lookups.py` lines 352-363) over one
page: returns the items yielded from this page, and `some offset_next` if the
page was fully consumed (the `while True` loop then fetches the next page at
that offset) or `none` if the `return` on an item older than `since` fired. -/
def dPage (since until_ : PyDate) : Nat → List DAction → List DAction × Option Nat
  | offset, [] => ([], some offset)
  | offset, a :: rest =>
      if dlt until_ a.created_at then dPage since until_ (offset + 1) rest
      else if dlt a.created_at since then ([], none)
      else
        ((dPage since until_ (offset + 1) rest).1.cons a,
         (dPage since until_ (offset + 1) rest).2)

/-- Embedding of the `while True` page loop of `get_bounded_user_actions`
(`src/did/lookups.py` lines 336-363).  `feed offset` is the `user_actions`
array the provider returns for a request at that offset.  `fuel` bounds the
number of page fetches we observe: `some items` means the generator
terminated (via its `return`) within that many fetches and yielded `items`;
`none` means it was still fetching pages.  The source loop has no other exit,
so a result that is `none` for every `fuel` is a non-terminating walk. -/
def dWalk (feed : Nat → List DAction) (since until_ : PyDate) :
    Nat → Nat → Option (List DAction)
  | 0, _ => none
  | fuel + 1, offset =>
      match dPage since until_ offset (feed offset) with
      | (ys, none) => some ys
      | (ys, some offset2) =>
          (dWalk feed since until_ fuel offset2).map (fun zs => ys ++ zs)

/-- The Discourse tally accumulated by `lookup_discourse`
(`src/did/lookups.py` lines 368-380).  `replies_by_topic` is an insertion
ordered association list, matching the `defaultdict` iteration order. -/
structure DTally where
  total_liked : Nat
  new_topics : List (String × String)
  replies_by_topic : List ((String × String) × Nat)
deriving DecidableEq

/-- Embedding of the report-rendering tail of `lookup_discourse`
(`src/did/lookups.py` lines 382-410), as the list of printed lines. -/
def renderDiscourse (t : DTally) : List String :=
  (if t.new_topics ≠ [] then
      (if t.new_topics.length = 1 then ["Created 1 new topic:"]
       else ["Created " ++ toString t.new_topics.length ++ " new topics:"]) ++
      [""] ++
      t.new_topics.map (fun p => "- " ++ p.1 ++ " (" ++ p.2 ++ ")") ++
      [""]
   else []) ++
  (if t.replies_by_topic ≠ [] then
      (let total := (t.replies_by_topic.map (fun p => p.2)).sum
       ["Wrote " ++ toString total ++ " " ++
          (if total = 1 then "reply" else "replies") ++ " in " ++
          toString t.replies_by_topic.length ++ " " ++
          (if t.replies_by_topic.length = 1 then "topic" else "topics") ++
          ":"]) ++
      [""] ++
      t.replies_by_topic.map (fun p =>
        "- " ++ toString p.2 ++ " " ++
          (if p.2 = 1 then "reply" else "replies") ++ " in " ++
          p.1.1 ++ " (" ++ p.1.2 ++ ")") ++
      [""]
   else []) ++
  (if t.total_liked = 1 then ["Liked 1 post."] else
    ["Liked " ++ toString t.total_liked ++ " posts."]) ++
  [""]

/-- The new-topics block as the spec describes it, for a nonempty tally:
count line (singular for one topic), blank, enumerated list, blank. -/
def topicsBlockSpec (topics : List (String × String)) : List String :=
  (if topics.length = 1 then ["Created 1 new topic:"]
   else ["Created " ++ toString topics.length ++ " new topics:"]) ++
  [""] ++
  topics.map (fun p => "- " ++ p.1 ++ " (" ++ p.2 ++ ")") ++
  [""]

/-- The replies block as the spec describes it, for a nonempty tally:
total line with singular/plural words, blank, per-topic breakdown, blank. -/
def repliesBlockSpec (replies : List ((String × String) × Nat)) : List String :=
  (let total := (replies.map (fun p => p.2)).sum
   ["Wrote " ++ toString total ++ " " ++
      (if total = 1 then "reply" else "replies") ++ " in " ++
      toString replies.length ++ " " ++
      (if replies.length = 1 then "topic" else "topics") ++ ":"]) ++
  [""] ++
  replies.map (fun p =>
    "- " ++ toString p.2 ++ " " ++
      (if p.2 = 1 then "reply" else "replies") ++ " in " ++
      p.1.1 ++ " (" ++ p.1.2 ++ ")") ++
  [""]

/-- The likes line with singular/plural wording. -/
def likesLineSpec (n : Nat) : String :=
  if n = 1 then "Liked 1 post." else "Liked " ++ toString n ++ " posts."



/-- C1: the spec (and the repository test `tests/test_did.py`) assert that
resolving the fully-elapsed previous quarter at anchor 2021-12-10 yields the
period 2021-09-01 to 2021-11-30.  The code instead returns the four-month
span 2021-06-01 to 2021-09-30 (labelled Q3 2021); in particular no label
makes the result equal the asserted pair of dates. -/
theorem c1_last_quarter_code_result :
    DidCli.get_last_period ⟨2021, 12, 10⟩ .quarter =
      some ("Q3 2021", ⟨2021, 6, 1⟩, ⟨2021, 9, 30⟩) ∧
    ∀ label : String,
      DidCli.get_last_period ⟨2021, 12, 10⟩ .quarter ≠
        some (label, ⟨2021, 9, 1⟩, ⟨2021, 11, 30⟩) := by
  refine ⟨by decide, ?_⟩
  intro label h
  rw [show DidCli.get_last_period ⟨2021, 12, 10⟩ .quarter =
        some ("Q3 2021", ⟨2021, 6, 1⟩, ⟨2021, 9, 30⟩) from by decide] at h
  simp [PyDate.mk.injEq] at h

/-- C2: the claim says that for every anchor, last-quarter resolution ends on
a quarter boundary (which the code does satisfy, second conjunct) and starts
on the first day of that same three-month quarter.  The code instead starts
the period at month `end.month - 3`: at anchor 2021-05-15 this is month 0 and
the date constructor raises (first conjunct, `none`), and at anchor
2021-12-10 the result spans months 6 through 9, a four-month window (third
conjunct). -/
theorem c2_last_quarter_shape :
    DidCli.get_last_period ⟨2021, 5, 15⟩ .quarter = none ∧
    ((List.range 12).all (fun i =>
        match DidCli.previous_quarter ⟨2021, i + 1, 15⟩ with
        | some e => [(3, 31), (6, 30), (9, 30), (12, 31)].contains (e.month, e.day)
        | none => false)) = true ∧
    (DidCli.get_last_period ⟨2021, 12, 10⟩ .quarter).map
        (fun r => (r.2.1.month, r.2.2.month)) = some (6, 9) := by
  refine ⟨by decide, by decide, by decide⟩

/-- C10: the single-file implementation (`src/did.py`) and the split
implementation (`src/did/cli.py`) of the calendar resolver agree
extensionally: for every anchor date and every period token, both
`get_this_period` and `get_last_period` return the same (label, start, end)
triple (including the failure cases, which agree as well). -/
theorem c10_implementations_agree (today : PyDate) (p : Period) :
    DidPy.get_this_period today p = DidCli.get_this_period today p ∧
    DidPy.get_last_period today p = DidCli.get_last_period today p := by
  cases p <;> exact ⟨rfl, rfl⟩

/-- C9: `between` is a validation gate: dates are totally ordered, the
command refuses (no lookup runs) exactly when `since >= until`, equal dates
included, and hands `(since, until)` to the core exactly when
`since < until`. -/
theorem c9_between_validation (s u : PyDate) :
    (dle u s ∨ dlt s u) ∧
    (dle u s → DidCli.between s u = none) ∧
    (dlt s u → DidCli.between s u = some (s, u)) := by
  refine ⟨?_, ?_, ?_⟩
  · by_cases h : dlt s u
    · exact Or.inr h
    · exact Or.inl ((not_dlt_iff s u).1 h)
  · intro h
    unfold DidCli.between
    rw [if_pos h]
  · intro h
    unfold DidCli.between
    rw [if_neg (fun hc => dle_not_dlt hc h)]

/-- Witness for C9 at concrete dates: a strictly increasing pair passes
through unchanged, and an equal pair is refused. -/
theorem c9_between_validation_witness :
    DidCli.between ⟨2021, 1, 1⟩ ⟨2021, 1, 2⟩ =
      some (⟨2021, 1, 1⟩, ⟨2021, 1, 2⟩) ∧
    DidCli.between ⟨2021, 1, 1⟩ ⟨2021, 1, 1⟩ = none :=
  ⟨(c9_between_validation ⟨2021, 1, 1⟩ ⟨2021, 1, 2⟩).2.2 (by decide),
   (c9_between_validation ⟨2021, 1, 1⟩ ⟨2021, 1, 1⟩).2.1 (by decide)⟩

/-- C5 counterexample: with an empty tally (zero likes, no topics, no
replies) the Discourse report still prints the likes line, as
"Liked 0 posts." — the claim that a zero tally prints no likes line is false
on the code. -/
theorem c5_counterexample :
    renderDiscourse ⟨0, [], []⟩ = ["Liked 0 posts.", ""] := by decide

/-- C5 amended: the Discourse report renders the three blocks in order; the
new-topics block and the replies block are omitted exactly when their tally
is empty, while the likes line is always printed (including "Liked 0 posts."
for a zero tally); each count uses singular wording exactly when it is 1 and
plural wording otherwise. -/
theorem c5_discourse_render :
    (∀ t : DTally,
        renderDiscourse t =
          (if t.new_topics = [] then [] else topicsBlockSpec t.new_topics) ++
          (if t.replies_by_topic = [] then []
           else repliesBlockSpec t.replies_by_topic) ++
          [likesLineSpec t.total_liked, ""]) ∧
    likesLineSpec 0 = "Liked 0 posts." ∧
    likesLineSpec 1 = "Liked 1 post." ∧
    likesLineSpec 5 = "Liked 5 posts." ∧
    topicsBlockSpec [("T", "U")] = ["Created 1 new topic:", "", "- T (U)", ""] ∧
    topicsBlockSpec [("T", "U"), ("S", "V")] =
      ["Created 2 new topics:", "", "- T (U)", "- S (V)", ""] ∧
    repliesBlockSpec [(("T", "U"), 1)] =
      ["Wrote 1 reply in 1 topic:", "", "- 1 reply in T (U)", ""] ∧
    repliesBlockSpec [(("T", "U"), 2), (("S", "V"), 1)] =
      ["Wrote 3 replies in 2 topics:", "",
       "- 2 replies in T (U)", "- 1 reply in S (V)", ""] := by
  refine ⟨?_, by decide, by decide, by decide, by decide, by decide,
    by decide, by decide⟩
  intro t
  by_cases h1 : t.new_topics = [] <;> by_cases h2 : t.replies_by_topic = [] <;>
    by_cases h3 : t.total_liked = 1 <;>
      simp [renderDiscourse, topicsBlockSpec, repliesBlockSpec, likesLineSpec,
        h1, h2, h3]

/-- Helper for C6: evaluation of the month-year branch of
`convert_to_range` on a token built from three non-dash month characters,
a dash, and four digit characters, when the month token is a key of the
month dictionary and the year is in the valid date range. -/
theorem month_branch_eval (a b c c1 c2 c3 c4 : Char) (mn : Nat)
    (ha : (a == '-') = false) (hb : (b == '-') = false) (hc : (c == '-') = false)
    (hlook : monthLookup [a, b, c] = some mn)
    (hmn1 : 1 ≤ mn) (hmn12 : mn ≤ 12)
    (h1 : c1.isDigit = true) (h2 : c2.isDigit = true)
    (h3 : c3.isDigit = true) (h4 : c4.isDigit = true)
    (hylo : 1 ≤ strToNat [c1, c2, c3, c4])
    (hyhi : strToNat [c1, c2, c3, c4] ≤ 9999) :
    DidCli.convert_to_range [a, b, c, '-', c1, c2, c3, c4] =
      some (⟨strToNat [c1, c2, c3, c4], mn, 1⟩,
            ⟨strToNat [c1, c2, c3, c4], mn,
             daysInMonth (strToNat [c1, c2, c3, c4]) mn⟩) := by
  have hdash : hasDash [a, b, c, '-', c1, c2, c3, c4] = true := by
    simp [hasDash, List.any, ha, hb, hc]
  have hpart : partitionDash [a, b, c, '-', c1, c2, c3, c4] =
      ([a, b, c], [c1, c2, c3, c4]) := by
    simp [partitionDash, ha, hb, hc]
  have hnum : isnumeric [c1, c2, c3, c4] = true := by
    simp [isnumeric, h1, h2, h3, h4]
  unfold DidCli.convert_to_range
  rw [if_neg (by simp), if_neg (by simp), if_pos ⟨rfl, hdash⟩, hpart]
  simp only [hlook]
  rw [if_pos hnum]
  rw [makeDate_valid ⟨hylo, hyhi, hmn1, hmn12, le_refl 1, daysInMonth_pos _ _⟩]
  rw [makeDate_valid ⟨hylo, hyhi, hmn1, hmn12, daysInMonth_pos _ _, le_refl _⟩]
  rfl

/-- C6 counterexample: the month-year branch of `convert_to_range` is not
case-insensitive — the upper-case and capitalised spellings of the
feb-2020 token are rejected (the month dictionary lookup fails, an
`AssertionError` in Python) instead of yielding February 2020. -/
theorem c6_counterexample :
    DidCli.convert_to_range ['F', 'E', 'B', '-', '2', '0', '2', '0'] = none ∧
    DidCli.convert_to_range ['F', 'e', 'b', '-', '2', '0', '2', '0'] = none :=
  ⟨by decide, by decide⟩

/-- C6 amended: for every LOWERCASE three-letter month name and every valid
year, `convert_to_range` on the token month-YYYY returns that month in that
year, from its first day to its leap-year-aware last day (the dictionary maps
every lowercase abbreviation to its month number, and feb resolves to 29 days
in 2020 and 28 in 2021); upper- or mixed-case month tokens are rejected. -/
theorem c6_month_year_range :
    (∀ (mn : Nat) (c1 c2 c3 c4 : Char), 1 ≤ mn → mn ≤ 12 →
        c1.isDigit = true → c2.isDigit = true →
        c3.isDigit = true → c4.isDigit = true →
        1 ≤ strToNat [c1, c2, c3, c4] → strToNat [c1, c2, c3, c4] ≤ 9999 →
        DidCli.convert_to_range (monthAbbrev mn ++ '-' :: [c1, c2, c3, c4]) =
          some (⟨strToNat [c1, c2, c3, c4], mn, 1⟩,
                ⟨strToNat [c1, c2, c3, c4], mn,
                 daysInMonth (strToNat [c1, c2, c3, c4]) mn⟩)) ∧
    ((List.range 12).all (fun i =>
        monthLookup (monthAbbrev (i + 1)) == some (i + 1))) = true ∧
    DidCli.convert_to_range ['f', 'e', 'b', '-', '2', '0', '2', '0'] =
      some (⟨2020, 2, 1⟩, ⟨2020, 2, 29⟩) ∧
    DidCli.convert_to_range ['f', 'e', 'b', '-', '2', '0', '2', '1'] =
      some (⟨2021, 2, 1⟩, ⟨2021, 2, 28⟩) := by
  refine ⟨?_, by decide, by decide, by decide⟩
  intro mn c1 c2 c3 c4 hmn1 hmn12 h1 h2 h3 h4 hylo hyhi
  interval_cases mn <;>
    exact month_branch_eval _ _ _ _ _ _ _ _ (by decide) (by decide) (by decide)
      (by decide) (by decide) (by decide) h1 h2 h3 h4 hylo hyhi

/-- Witness for C6 at a concrete input: the lowercase apr-2021 token
resolves to April 2021. -/
theorem c6_month_year_range_witness :
    DidCli.convert_to_range (monthAbbrev 4 ++ '-' :: ['2', '0', '2', '1']) =
      some (⟨2021, 4, 1⟩, ⟨2021, 4, 30⟩) := by
  have h := c6_month_year_range.1 4 '2' '0' '2' '1' (by decide) (by decide)
    (by decide) (by decide) (by decide) (by decide) (by decide) (by decide)
  exact h

/-- The walk itself never reports the horizon outcome: only the pre-walk
short-circuit does. -/
theorem ghGo_ne_horizon (s u : PyDate) (evs : List GhEvent) :
    (ghGo s u evs).2 ≠ GhTerm.horizon := by
  induction evs with
  | nil => simp [ghGo]
  | cons e rest ih =>
      cases hc : classify e with
      | dated d =>
          simp only [ghGo, hc]
          split_ifs with h1 h2
          · exact ih
          · simp
          · simpa using ih
      | notImplemented => simp [ghGo, hc]
      | ignored => simpa [ghGo, hc] using ih

/-- C7: before any page is fetched, `_github_events` compares today minus
`until` against the 90-day horizon; beyond it, the walk is skipped entirely —
the result is the cannot-reach-this-far-back message, independent of whatever
the feed contains — and within it, the result is exactly the walk over the
feed, which never reports the horizon outcome. -/
theorem c7_horizon_short_circuit (today s u : PyDate)
    (evs evs2 : List GhEvent) :
    ((toOrdinal today : Int) - toOrdinal u > 90 →
        githubEvents today s u evs = ([.horizonMsg], .horizon) ∧
        githubEvents today s u evs = githubEvents today s u evs2) ∧
    (¬ (toOrdinal today : Int) - toOrdinal u > 90 →
        githubEvents today s u evs = ghGo s u evs ∧
        (githubEvents today s u evs).2 ≠ .horizon) := by
  constructor
  · intro h
    unfold githubEvents
    rw [if_pos h, if_pos h]
    exact ⟨rfl, rfl⟩
  · intro h
    unfold githubEvents
    rw [if_neg h]
    exact ⟨rfl, ghGo_ne_horizon s u evs⟩

/-- Witness for C7 at concrete dates 343 days apart: the walk is skipped. -/
theorem c7_horizon_short_circuit_witness :
    githubEvents ⟨2021, 12, 10⟩ ⟨2020, 10, 1⟩ ⟨2021, 1, 1⟩ [] =
      ([.horizonMsg], .horizon) :=
  ((c7_horizon_short_circuit ⟨2021, 12, 10⟩ ⟨2020, 10, 1⟩ ⟨2021, 1, 1⟩ []
    []).1 (by decide)).1

/-- C8: in the GitHub event normalizer, exactly the kinds PublicEvent and
SponsorshipEvent hit the `NotImplementedError` branch, which aborts the walk;
a kind outside the recognized table falls into the ignored branch, which
emits the ignoring marker for that kind and continues the walk with the
remaining items. -/
theorem c8_unsupported_kinds (e : GhEvent) (s u : PyDate)
    (rest : List GhEvent) :
    (classify e = .notImplemented ↔
      e.type = "PublicEvent" ∨ e.type = "SponsorshipEvent") ∧
    (classify e = .ignored ↔ e.type ∉ recognizedTypes) ∧
    (classify e = .ignored →
      ghGo s u (e :: rest) =
        ((ghGo s u rest).1.cons (.ignoring e.type), (ghGo s u rest).2)) ∧
    (classify e = .notImplemented → ghGo s u (e :: rest) = ([], .raised)) := by
  refine ⟨⟨?_, ?_⟩, ⟨?_, ?_⟩, ?_, ?_⟩
  · intro h
    unfold classify at h
    by_cases h1 : e.type = "CommitCommentEvent"
    · rw [if_pos h1] at h; exact ItemClass.noConfusion h
    rw [if_neg h1] at h
    by_cases h2 : e.type = "CreateEvent"
    · rw [if_pos h2] at h; exact ItemClass.noConfusion h
    rw [if_neg h2] at h
    by_cases h3 : e.type = "DeleteEvent"
    · rw [if_pos h3] at h; exact ItemClass.noConfusion h
    rw [if_neg h3] at h
    by_cases h4 : e.type = "ForkEvent"
    · rw [if_pos h4] at h; exact ItemClass.noConfusion h
    rw [if_neg h4] at h
    by_cases h5 : e.type = "IssueCommentEvent"
    · rw [if_pos h5] at h; exact ItemClass.noConfusion h
    rw [if_neg h5] at h
    by_cases h6 : e.type = "IssuesEvent"
    · rw [if_pos h6] at h; exact ItemClass.noConfusion h
    rw [if_neg h6] at h
    by_cases h7 : e.type = "PublicEvent"
    · exact Or.inl h7
    rw [if_neg h7] at h
    by_cases h8 : e.type = "PullRequestEvent"
    · rw [if_pos h8] at h; exact ItemClass.noConfusion h
    rw [if_neg h8] at h
    by_cases h9 : e.type = "PullRequestReviewEvent"
    · rw [if_pos h9] at h; exact ItemClass.noConfusion h
    rw [if_neg h9] at h
    by_cases h10 : e.type = "PullRequestReviewCommentEvent"
    · rw [if_pos h10] at h; exact ItemClass.noConfusion h
    rw [if_neg h10] at h
    by_cases h11 : e.type = "PushEvent"
    · rw [if_pos h11] at h; exact ItemClass.noConfusion h
    rw [if_neg h11] at h
    by_cases h12 : e.type = "ReleaseEvent"
    · rw [if_pos h12] at h; exact ItemClass.noConfusion h
    rw [if_neg h12] at h
    by_cases h13 : e.type = "SponsorshipEvent"
    · exact Or.inr h13
    rw [if_neg h13] at h
    exact ItemClass.noConfusion h
  · intro h
    unfold classify
    rcases h with h | h <;>
      · repeat rw [if_neg (fun hh => absurd (h.symm.trans hh) (by decide))]
        rw [if_pos h]
  · intro h
    unfold classify at h
    by_cases h1 : e.type = "CommitCommentEvent"
    · rw [if_pos h1] at h; exact ItemClass.noConfusion h
    rw [if_neg h1] at h
    by_cases h2 : e.type = "CreateEvent"
    · rw [if_pos h2] at h; exact ItemClass.noConfusion h
    rw [if_neg h2] at h
    by_cases h3 : e.type = "DeleteEvent"
    · rw [if_pos h3] at h; exact ItemClass.noConfusion h
    rw [if_neg h3] at h
    by_cases h4 : e.type = "ForkEvent"
    · rw [if_pos h4] at h; exact ItemClass.noConfusion h
    rw [if_neg h4] at h
    by_cases h5 : e.type = "IssueCommentEvent"
    · rw [if_pos h5] at h; exact ItemClass.noConfusion h
    rw [if_neg h5] at h
    by_cases h6 : e.type = "IssuesEvent"
    · rw [if_pos h6] at h; exact ItemClass.noConfusion h
    rw [if_neg h6] at h
    by_cases h7 : e.type = "PublicEvent"
    · rw [if_pos h7] at h; exact ItemClass.noConfusion h
    rw [if_neg h7] at h
    by_cases h8 : e.type = "PullRequestEvent"
    · rw [if_pos h8] at h; exact ItemClass.noConfusion h
    rw [if_neg h8] at h
    by_cases h9 : e.type = "PullRequestReviewEvent"
    · rw [if_pos h9] at h; exact ItemClass.noConfusion h
    rw [if_neg h9] at h
    by_cases h10 : e.type = "PullRequestReviewCommentEvent"
    · rw [if_pos h10] at h; exact ItemClass.noConfusion h
    rw [if_neg h10] at h
    by_cases h11 : e.type = "PushEvent"
    · rw [if_pos h11] at h; exact ItemClass.noConfusion h
    rw [if_neg h11] at h
    by_cases h12 : e.type = "ReleaseEvent"
    · rw [if_pos h12] at h; exact ItemClass.noConfusion h
    rw [if_neg h12] at h
    by_cases h13 : e.type = "SponsorshipEvent"
    · rw [if_pos h13] at h; exact ItemClass.noConfusion h
    rw [if_neg h13] at h
    intro hmem
    simp only [recognizedTypes, List.mem_cons, List.not_mem_nil,
      or_false] at hmem
    rcases hmem with hh | hh | hh | hh | hh | hh | hh | hh | hh | hh |
      hh | hh | hh
    exacts [h1 hh, h2 hh, h3 hh, h4 hh, h5 hh, h6 hh, h7 hh, h8 hh,
      h9 hh, h10 hh, h11 hh, h12 hh, h13 hh]
  · intro h
    unfold classify
    repeat rw [if_neg (fun hh => h (by rw [hh]; decide))]
  · intro h
    simp only [ghGo, h]
  · intro h
    simp only [ghGo, h]

/-- Witness for C8 at concrete events: an unrecognized WatchEvent is ignored
with a marker and the walk continues to exhaustion, while a PublicEvent
aborts the walk. -/
theorem c8_unsupported_kinds_witness :
    ghGo ⟨2021, 1, 1⟩ ⟨2021, 12, 31⟩
        [⟨"WatchEvent", ⟨2021, 6, 1⟩, ⟨2021, 6, 1⟩, ⟨2021, 6, 1⟩,
          ⟨2021, 6, 1⟩⟩] =
      ([.ignoring "WatchEvent", .ranOut], .exhausted) ∧
    ghGo ⟨2021, 1, 1⟩ ⟨2021, 12, 31⟩
        [⟨"PublicEvent", ⟨2021, 6, 1⟩, ⟨2021, 6, 1⟩, ⟨2021, 6, 1⟩,
          ⟨2021, 6, 1⟩⟩] =
      ([], .raised) := by
  constructor
  · exact (c8_unsupported_kinds
      ⟨"WatchEvent", ⟨2021, 6, 1⟩, ⟨2021, 6, 1⟩, ⟨2021, 6, 1⟩, ⟨2021, 6, 1⟩⟩
      ⟨2021, 1, 1⟩ ⟨2021, 12, 31⟩ []).2.2.1 (by decide)
  · exact (c8_unsupported_kinds
      ⟨"PublicEvent", ⟨2021, 6, 1⟩, ⟨2021, 6, 1⟩, ⟨2021, 6, 1⟩, ⟨2021, 6, 1⟩⟩
      ⟨2021, 1, 1⟩ ⟨2021, 12, 31⟩ []).2.2.2 (by decide)

theorem dlt_asymm {a b : PyDate} (h : dlt a b) : ¬ dlt b a :=
  dle_not_dlt (Or.inl h)

theorem dlt_dle_trans {a b c : PyDate} (h1 : dlt a b) (h2 : dle b c) :
    dlt a c := by
  cases a with | mk ay am ad =>
  cases b with | mk by' bm bd =>
  cases c with | mk cy cm cd =>
  simp only [dlt, dle, PyDate.mk.injEq] at h1 h2 ⊢
  omega

/-- On a provider whose pages are empty, the Discourse page loop refetches
the same offset forever: no number of page fetches makes it terminate. -/
theorem dWalk_empty_none (s u : PyDate) :
    ∀ fuel offset, dWalk (fun _ => []) s u fuel offset = none := by
  intro fuel
  induction fuel with
  | zero => intro offset; rfl
  | succ n ih =>
      intro offset
      simp only [dWalk, dPage]
      rw [ih offset]
      rfl

/-- Every entry line the GitHub walk outputs is dated inside the window. -/
theorem ghGo_entries_in_window (s u : PyDate) :
    ∀ evs d e, GhLine.entry d e ∈ (ghGo s u evs).1 → dle s d ∧ dle d u := by
  intro evs
  induction evs with
  | nil =>
      intro d e h
      simp [ghGo] at h
  | cons e0 rest ih =>
      intro d e h
      cases hc : classify e0 with
      | dated d0 =>
          simp only [ghGo, hc] at h
          split_ifs at h with h1 h2
          · exact ih d e h
          · simp at h
          · rcases List.mem_cons.1 h with heq | hmem
            · rcases GhLine.entry.inj heq with ⟨hd, he⟩
              subst hd
              exact ⟨(not_dlt_iff d s).1 h2, (not_dlt_iff u d).1 h1⟩
            · exact ih d e hmem
      | notImplemented =>
          simp only [ghGo, hc] at h
          simp at h
      | ignored =>
          simp only [ghGo, hc] at h
          rcases List.mem_cons.1 h with heq | hmem
          · exact GhLine.noConfusion heq
          · exact ih d e hmem

/-- Every action one page of the Discourse walk yields is dated inside the
window. -/
theorem dPage_yields_in_window (s u : PyDate) :
    ∀ acts offset a, a ∈ (dPage s u offset acts).1 →
      dle s a.created_at ∧ dle a.created_at u := by
  intro acts
  induction acts with
  | nil =>
      intro offset a h
      simp [dPage] at h
  | cons a0 rest ih =>
      intro offset a h
      simp only [dPage] at h
      split_ifs at h with h1 h2
      · exact ih _ a h
      · simp at h
      · rcases List.mem_cons.1 h with heq | hmem
        · subst heq
          exact ⟨(not_dlt_iff _ _).1 h2, (not_dlt_iff _ _).1 h1⟩
        · exact ih _ a hmem

/-- Every action the Discourse walk yields is dated inside the window. -/
theorem dWalk_yields_in_window (feed : Nat → List DAction) (s u : PyDate) :
    ∀ fuel offset ys, dWalk feed s u fuel offset = some ys →
      ∀ a ∈ ys, dle s a.created_at ∧ dle a.created_at u := by
  intro fuel
  induction fuel with
  | zero =>
      intro offset ys h
      exact Option.noConfusion h
  | succ n ih =>
      intro offset ys h a ha
      simp only [dWalk] at h
      cases hp : dPage s u offset (feed offset) with
      | mk ys0 k =>
          rw [hp] at h
          cases k with
          | none =>
              try dsimp only at h
              rw [Option.some.injEq] at h
              subst h
              have := dPage_yields_in_window s u (feed offset) offset a
              rw [hp] at this
              exact this ha
          | some offset2 =>
              try dsimp only at h
              cases hw : dWalk feed s u n offset2 with
              | none => rw [hw] at h; exact Option.noConfusion h
              | some zs =>
                  rw [hw] at h
                  simp only [Option.map_some', Option.some.injEq] at h
                  subst h
                  rcases List.mem_append.1 ha with hmem | hmem
                  · have := dPage_yields_in_window s u (feed offset) offset a
                    rw [hp] at this
                    exact this hmem
                  · exact ih offset2 zs hw a hmem

/-- C3: on a finite feed that runs out before reaching an item older than
`since`, the GitHub walk ends in the EXHAUSTED outcome and its output ends
with the ran-out warning line, and EXHAUSTED is distinct from a clean
STOP_OLDER termination (first two conjuncts, at a concrete in-window feed).
The Discourse walker, however, does not satisfy the claim: on a provider
whose history is exhausted (empty pages), the page loop refetches the same
offset forever — no number of page fetches terminates it, and it has no
warning outcome at all (third conjunct). -/
theorem c3_exhaustion_outcome :
    githubEvents ⟨2021, 12, 20⟩ ⟨2021, 1, 1⟩ ⟨2021, 12, 31⟩
        [⟨"CreateEvent", ⟨2021, 6, 1⟩, ⟨2021, 6, 1⟩, ⟨2021, 6, 1⟩,
          ⟨2021, 6, 1⟩⟩] =
      ([.entry ⟨2021, 6, 1⟩
          ⟨"CreateEvent", ⟨2021, 6, 1⟩, ⟨2021, 6, 1⟩, ⟨2021, 6, 1⟩,
            ⟨2021, 6, 1⟩⟩, .ranOut], .exhausted) ∧
    GhTerm.exhausted ≠ GhTerm.stopped ∧
    (∀ fuel offset,
        dWalk (fun _ => []) ⟨2021, 1, 1⟩ ⟨2021, 12, 31⟩ fuel offset = none) :=
  ⟨by decide, by decide, dWalk_empty_none ⟨2021, 1, 1⟩ ⟨2021, 12, 31⟩⟩

/-- C4: both walkers enforce the window inclusively.  Every entry the GitHub
walk presents and every action the Discourse walk yields is dated between
`since` and `until` inclusive (conjuncts 1 and 2); a dated item is handed
downstream exactly when `since <= date <= until` — in-window items, the
boundaries included, are presented and the walk continues (conjuncts 3
and 6), items strictly newer than `until` are skipped (conjuncts 4 and 7),
and an item strictly older than `since` stops the walk (conjuncts 5 and 8,
for a well-formed window). -/
theorem c4_window_inclusive (s u : PyDate) :
    (∀ evs d e, GhLine.entry d e ∈ (ghGo s u evs).1 → dle s d ∧ dle d u) ∧
    (∀ feed fuel offset ys, dWalk feed s u fuel offset = some ys →
        ∀ a ∈ ys, dle s a.created_at ∧ dle a.created_at u) ∧
    (∀ e d rest, classify e = .dated d → dle s d → dle d u →
        ghGo s u (e :: rest) =
          ((ghGo s u rest).1.cons (.entry d e), (ghGo s u rest).2)) ∧
    (∀ e d rest, classify e = .dated d → dlt u d →
        ghGo s u (e :: rest) = ghGo s u rest) ∧
    (∀ e d rest, classify e = .dated d → dle s u → dlt d s →
        ghGo s u (e :: rest) = ([], .stopped)) ∧
    (∀ a rest offset, dle s a.created_at → dle a.created_at u →
        dPage s u offset (a :: rest) =
          ((dPage s u (offset + 1) rest).1.cons a,
           (dPage s u (offset + 1) rest).2)) ∧
    (∀ a rest offset, dlt u a.created_at →
        dPage s u offset (a :: rest) = dPage s u (offset + 1) rest) ∧
    (∀ a rest offset, dle s u → dlt a.created_at s →
        dPage s u offset (a :: rest) = ([], none)) := by
  refine ⟨ghGo_entries_in_window s u, fun feed => dWalk_yields_in_window feed s u,
    ?_, ?_, ?_, ?_, ?_, ?_⟩
  · intro e d rest hc hs hu
    simp only [ghGo, hc]
    rw [if_neg (dle_not_dlt hu), if_neg (dle_not_dlt hs)]
  · intro e d rest hc hnew
    simp only [ghGo, hc]
    rw [if_pos hnew]
  · intro e d rest hc hw hold
    simp only [ghGo, hc]
    rw [if_neg (dlt_asymm (dlt_dle_trans hold hw)), if_pos hold]
  · intro a rest offset hs hu
    simp only [dPage]
    rw [if_neg (dle_not_dlt hu), if_neg (dle_not_dlt hs)]
  · intro a rest offset hnew
    simp only [dPage]
    rw [if_pos hnew]
  · intro a rest offset hw hold
    simp only [dPage]
    rw [if_neg (dlt_asymm (dlt_dle_trans hold hw)), if_pos hold]

/-- Witness for C4 at the lower boundary: an event dated exactly `since` is
presented (CONTINUE), not skipped and not treated as a stop condition, and a
Discourse action dated exactly `until` is yielded. -/
theorem c4_window_inclusive_witness :
    ghGo ⟨2021, 3, 1⟩ ⟨2021, 3, 31⟩
        [⟨"PushEvent", ⟨2021, 3, 1⟩, ⟨2021, 3, 1⟩, ⟨2021, 3, 1⟩,
          ⟨2021, 3, 1⟩⟩] =
      ([.entry ⟨2021, 3, 1⟩
          ⟨"PushEvent", ⟨2021, 3, 1⟩, ⟨2021, 3, 1⟩, ⟨2021, 3, 1⟩,
            ⟨2021, 3, 1⟩⟩, .ranOut], .exhausted) ∧
    dPage ⟨2021, 3, 1⟩ ⟨2021, 3, 31⟩ 0 [⟨⟨2021, 3, 31⟩, 5, "T", 7⟩] =
      ([⟨⟨2021, 3, 31⟩, 5, "T", 7⟩], some 1) := by
  constructor
  · exact (c4_window_inclusive ⟨2021, 3, 1⟩ ⟨2021, 3, 31⟩).2.2.1
      ⟨"PushEvent", ⟨2021, 3, 1⟩, ⟨2021, 3, 1⟩, ⟨2021, 3, 1⟩, ⟨2021, 3, 1⟩⟩
      ⟨2021, 3, 1⟩ [] (by decide) (by decide) (by decide)
  · exact (c4_window_inclusive ⟨2021, 3, 1⟩ ⟨2021, 3, 31⟩).2.2.2.2.2.1
      ⟨⟨2021, 3, 31⟩, 5, "T", 7⟩ [] 0 (by decide) (by decide)
